import Mathlib

/-!
Shallow embedding of the MCP tool-invocation client of
`src/admin-frontend/src/components/MCPManager.tsx`.

The component keeps React state
`status / tools / selectedTool / toolArgs / response / error / loading`
and a WebSocket `ws`; its handlers (`socket.onopen`, `socket.onerror`,
`socket.onclose`, `socket.onmessage`, `handleToolChange`, `handleArgChange`,
`handleCallTool`) are translated below as pure functions on an explicit
state record, and the wire traffic is made observable as the list of frames
passed to `socket.send`.

JSON values are modelled by the inductive `Json`; JavaScript truthiness,
property access on arbitrary values (absent property = `undefined`,
modelled as `Option.none`) and string coercion under `+` / `Array.join`
are modelled explicitly, because the handlers depend on them.
-/

namespace MCPClient

/-- JSON values (numbers restricted to integers; every number appearing in
the component's protocol traffic is an integer error code or version). -/
inductive Json where
  | null : Json
  | bool : Bool → Json
  | num : Int → Json
  | str : String → Json
  | arr : List Json → Json
  | obj : List (String × Json) → Json
deriving Repr

/-- JavaScript property access `j.k`: defined on objects (first binding of
the key; the frames built here have no duplicate keys), `undefined`
(`none`) on everything else, matching `data.result`, `data.error`, etc. on
parsed JSON. Primitive receivers yield `undefined` for the properties read
by this component, as in JavaScript. -/
def Json.getField : Json → String → Option Json
  | .obj fs, k => fs.lookup k
  | _, _ => none

/-- JavaScript truthiness of a JSON value: `null`, `false`, `0` and the
empty string are falsy; arrays and objects are always truthy. -/
def Json.truthy : Json → Bool
  | .null => false
  | .bool b => b
  | .num n => n != 0
  | .str s => s != ""
  | .arr _ => true
  | .obj _ => true

/-- `j.k` followed by a truthiness test, the shape of every guard in
`socket.onmessage` (`data.result && data.result.tools`, `data.error`,
`data.error.data ? ... : ...`): returns the field only when it is present
and truthy. -/
def jget (j : Json) (k : String) : Option Json :=
  match j.getField k with
  | some v => if v.truthy then some v else none
  | none => none

mutual
/-- JavaScript string coercion as performed by `+` with a string operand
and by `String(v)`: used for `data.error.message + ...` and for the
elements of `content.map(c => c.text)`. Arrays stringify by joining their
elements with commas; objects as the usual placeholder. -/
def jsAddString : Json → String
  | .null => "null"
  | .bool b => cond b "true" "false"
  | .num n => toString n
  | .str s => s
  | .arr xs => jsJoinList xs
  | .obj _ => "[object Object]"

/-- `Array.prototype.join` over already-coerced elements: `null` (and
`undefined`) elements become the empty string, a comma between elements. -/
def jsJoinList : List Json → String
  | [] => ""
  | [j] => jsJoinElem j
  | j :: rest => jsJoinElem j ++ "," ++ jsJoinList rest

def jsJoinElem : Json → String
  | .null => ""
  | .bool b => cond b "true" "false"
  | .num n => toString n
  | .str s => s
  | .arr xs => jsJoinList xs
  | .obj _ => "[object Object]"
end

/-- One element of `data.result.content.map((c: any) => c.text)` followed by
the `join` coercion: `none` models the TypeError thrown by `.text` on a
`null` element (caught by the surrounding `try`); otherwise an absent or
nullish `text` joins as the empty string and any other value is
string-coerced. -/
def contentElem : Json → Option String
  | .null => none
  | j =>
    some (match j.getField "text" with
          | none => ""
          | some .null => ""
          | some v => jsAddString v)

/-- `data.result.content.map((c: any) => c.text).join(String.fromCharCode 10)`:
`none` models the TypeError thrown when `content` is truthy but not an
array (or contains a `null` element); the `try` block turns that into the
parse-error branch. -/
def contentText : Json → Option String
  | .arr xs => (xs.mapM contentElem).map (String.intercalate "\n")
  | _ => none

/-- `data.error.message + (data.error.data ? (": " + data.error.data) : "")`
with JavaScript coercions: an absent `message` stringifies as
`"undefined"`. -/
def errMessage (err : Json) : String :=
  (match err.getField "message" with
   | some v => jsAddString v
   | none => "undefined") ++
  (match jget err "data" with
   | some d => ": " ++ jsAddString d
   | none => "")

/-- The component's connection-status state: `checking` initially,
`online` once the socket opens, `offline` on error or close. -/
inductive Status where
  | checking : Status
  | online : Status
  | offline : Status
deriving Repr, DecidableEq

/-- The React state of `MCPManager`. `tools` holds the raw value stored by
`setTools(data.result.tools)` (the code performs no validation of it);
`toolArgs` is the raw argument object; `loading` is the single shared
in-flight flag (the only pending-call marker the component has). -/
structure ClientState where
  status : Status
  tools : Json
  selectedTool : String
  toolArgs : Json
  response : String
  error : String
  loading : Bool
deriving Repr

/-- State installed by the `useEffect` body before any socket event. -/
def initialClient : ClientState :=
  { status := .checking
    tools := .arr []
    selectedTool := ""
    toolArgs := .obj []
    response := ""
    error := ""
    loading := false }

/-- The `initialize` request frame sent in `socket.onopen`. -/
def initFrame : Json :=
  .obj [("jsonrpc", .str "2.0"),
        ("id", .str "init"),
        ("method", .str "initialize"),
        ("params", .obj
          [("protocolVersion", .str "2024-11-05"),
           ("capabilities", .obj [("tools", .obj [])]),
           ("clientInfo", .obj
             [("name", .str "AdminFrontend"), ("version", .str "1.0.0")])])]

/-- The `tools/list` request frame, sent by the `setTimeout(..., 200)`
callback scheduled in `socket.onopen`. -/
def listFrame : Json :=
  .obj [("jsonrpc", .str "2.0"),
        ("id", .str "list"),
        ("method", .str "tools/list"),
        ("params", .obj [])]

/-- The `tools/call` request frame built in `handleCallTool`: its id is the
string `call_` followed by the selected tool name, and the caller-supplied
argument object is embedded verbatim. -/
def callFrame (name : String) (args : Json) : Json :=
  .obj [("jsonrpc", .str "2.0"),
        ("id", .str ("call_" ++ name)),
        ("method", .str "tools/call"),
        ("params", .obj [("name", .str name), ("arguments", args)])]

/-- `tools.find(t => t.name === selectedTool)`. On the non-array values the
code could have stored in `tools`, `find` would throw in JavaScript; that
situation is modelled as no match (it is unreachable in every run
considered here, where `tools` is always an array). Elements whose `name`
is not the selected string (including primitive elements, whose `.name` is
`undefined`) do not match. -/
def findTool (tools : Json) (name : String) : Option Json :=
  match tools with
  | .arr xs =>
    xs.find? (fun t =>
      match t.getField "name" with
      | some (.str s) => s == name
      | _ => false)
  | _ => none

/-- The `else if (data.error)` branch of `socket.onmessage` (reached when
no truthy `result.tools` / `result.content` was found). -/
def errorFallthrough (st : ClientState) (data : Json) : ClientState :=
  match jget data "error" with
  | some err => { st with error := errMessage err, loading := false }
  | none => st

/-- `socket.onmessage`. The argument is the outcome of
`JSON.parse(event.data)`: `.error e` is a parse exception whose
`String(e)` rendering is `e`, handled by the `catch` block; `.ok data` is
the parsed value, dispatched on `data.result.tools`, then
`data.result.content`, then `data.error`, each tested for truthiness
exactly as in the source. A TypeError thrown while mapping `content`
(non-array `content`, `null` element) is caught by the same `catch`. -/
def onmessage (st : ClientState) (parsed : Except String Json) : ClientState :=
  match parsed with
  | .error e => { st with error := "Erreur de parsing MCP: " ++ e, loading := false }
  | .ok data =>
    match jget data "result" with
    | some result =>
      match jget result "tools" with
      | some ts => { st with tools := ts }
      | none =>
        match jget result "content" with
        | some content =>
          match contentText content with
          | some s => { st with response := s, loading := false }
          | none =>
            { st with error := "Erreur de parsing MCP: TypeError", loading := false }
        | none => errorFallthrough st data
    | none => errorFallthrough st data

/-- `socket.onerror`. -/
def onerror (st : ClientState) : ClientState :=
  { st with status := .offline, error := "Impossible de se connecter au serveur MCP." }

/-- `socket.onclose`: status goes offline; the closure flag `isOpen`
(whether `onopen` ever ran) gates the error message. `loading` is not
touched. -/
def onclose (st : ClientState) (isOpen : Bool) : ClientState :=
  { st with status := .offline
            error := if isOpen then "Connexion MCP fermée." else st.error }

/-- `handleToolChange` (the `Select` handler): selects a tool and clears
arguments, response and error. -/
def handleToolChange (st : ClientState) (name : String) : ClientState :=
  { st with selectedTool := name, toolArgs := .obj [], response := "", error := "" }

/-- JavaScript object spread update, for
`setToolArgs(prev => ({...prev, [key]: value}))`: overrides the key in
place when present, appends it otherwise. `toolArgs` is always an object;
the other cases are inert. -/
def setEntry : List (String × Json) → String → Json → List (String × Json)
  | [], k, v => [(k, v)]
  | (k', v') :: rest, k, v =>
    if k' = k then (k', v) :: rest else (k', v') :: setEntry rest k v

/-- `handleArgChange(key, value)`. -/
def handleArgChange (st : ClientState) (key : String) (value : Json) : ClientState :=
  match st.toolArgs with
  | .obj fs => { st with toolArgs := .obj (setEntry fs key value) }
  | j => { st with toolArgs := j }

/-- `handleCallTool`, as a function of the client state and of
`ws.readyState` (`none` models `ws === null`; `1` is `WebSocket.OPEN`).
Returns the updated state together with the frames passed to `ws.send`
during the call (empty on the two early-return error paths). -/
def handleCallTool (st : ClientState) (ws : Option Nat) : ClientState × List Json :=
  let st := { st with loading := true, response := "", error := "" }
  if ws ≠ some 1 then
    ({ st with error := "WebSocket MCP non connecté.", loading := false }, [])
  else
    match findTool st.tools st.selectedTool with
    | none => ({ st with error := "Outil non trouvé.", loading := false }, [])
    | some _ => (st, [callFrame st.selectedTool st.toolArgs])

/-- External events driving the component: the WebSocket lifecycle
callbacks, the firing of the `setTimeout` scheduled in `socket.onopen`,
an incoming frame (already split into parse outcome), and the user
interactions wired in the render (clicking a tool in the list, editing an
argument field, clicking the call button). -/
inductive Event where
  | wsOpen : Event
  | timerFire : Event
  | wsError : Event
  | wsClose : Event
  | recv : Except String Json → Event
  | selectItem : String → Event
  | changeTool : String → Event
  | editArg : String → Json → Event
  | clickCall : Event
deriving Repr

/-- Whether an event delivers an incoming frame. -/
def Event.isRecv : Event → Bool
  | .recv _ => true
  | _ => false

/-- The component plus its observable environment: the client state, the
socket (`ws` is its `readyState`; `none` would be a null socket, which the
`useEffect` body never leaves behind), the frames whose send was scheduled
by `setTimeout` and has not fired yet, the closure flag `isOpen`, and the
frames passed to `socket.send` so far (oldest first). -/
structure World where
  client : ClientState
  ws : Option Nat
  timers : List Json
  isOpen : Bool
  sent : List Json
deriving Repr

/-- The world right after the `useEffect` body ran: fresh state, a socket
in `CONNECTING` (`readyState = 0`), nothing scheduled, nothing sent. -/
def initWorld : World :=
  { client := initialClient
    ws := some 0
    timers := []
    isOpen := false
    sent := [] }

/-- One event step. `wsOpen` follows `socket.onopen`: flag `isOpen`, set
status online, send `initFrame` at once and schedule `listFrame` (the
200 ms timeout); `timerFire` runs the earliest scheduled send (on a live
socket; JavaScript would throw on a closed one, and no run below fires a
timer after close); `clickCall` is the call button, which the render
disables while `loading` is set. -/
def step (w : World) (e : Event) : World :=
  match e with
  | .wsOpen =>
    { w with ws := some 1
             isOpen := true
             client := { w.client with status := .online }
             sent := w.sent ++ [initFrame]
             timers := w.timers ++ [listFrame] }
  | .timerFire =>
    match w.timers with
    | [] => w
    | f :: rest =>
      if w.ws = some 1 then { w with timers := rest, sent := w.sent ++ [f] }
      else { w with timers := rest }
  | .wsError => { w with client := onerror w.client }
  | .wsClose => { w with ws := some 3, client := onclose w.client w.isOpen }
  | .recv p => { w with client := onmessage w.client p }
  | .selectItem name => { w with client := { w.client with selectedTool := name } }
  | .changeTool name => { w with client := handleToolChange w.client name }
  | .editArg k v => { w with client := handleArgChange w.client k v }
  | .clickCall =>
    if w.client.loading then w
    else
      let r := handleCallTool w.client w.ws
      { w with client := r.1, sent := w.sent ++ r.2 }

/-- Run a sequence of events from a world. -/
def run (w : World) : List Event → World
  | [] => w
  | e :: es => run (step w e) es

/-- JavaScript object update by key (spread with one overriding entry, as
in `setToolArgs`): replaces the value of an existing key in place,
appends the key otherwise. Used below to vary the `id` field of a frame. -/
def Json.setField : Json → String → Json → Json
  | .obj fs, k, v => .obj (setEntry fs k v)
  | j, _, _ => j

/-- An input schema declaring a numeric field `a` and a string field `b`,
both required (the shape used by the spec example for argument
validation). -/
def schemaAB : Json :=
  .obj [("type", .str "object"),
        ("properties", .obj
          [("a", .obj [("type", .str "number")]),
           ("b", .obj [("type", .str "string")])]),
        ("required", .arr [.str "a", .str "b"])]

/-- A tool descriptor named `tool1` whose schema requires `a` and `b`. -/
def toolAB : Json :=
  .obj [("name", .str "tool1"),
        ("description", .str "demo tool"),
        ("inputSchema", schemaAB)]

/-- A second tool descriptor, named `tool2`. -/
def toolTwo : Json :=
  .obj [("name", .str "tool2"),
        ("description", .str "second demo tool"),
        ("inputSchema", .obj [])]

/-- A well-formed `tools/list` success response carrying the given
descriptors. -/
def toolsListResp (ts : List Json) : Json :=
  .obj [("jsonrpc", .str "2.0"),
        ("id", .str "list"),
        ("result", .obj [("tools", .arr ts)])]

/-- A well-formed success response whose result carries one text content
fragment, under an arbitrary response id. -/
def contentResp (rid s : String) : Json :=
  .obj [("jsonrpc", .str "2.0"),
        ("id", .str rid),
        ("result", .obj
          [("content", .arr [.obj [("type", .str "text"), ("text", .str s)]])])]

/-- A well-formed error response with code -32000 and the given message,
under an arbitrary response id. -/
def errorResp (rid msg : String) : Json :=
  .obj [("jsonrpc", .str "2.0"),
        ("id", .str rid),
        ("error", .obj [("code", .num (-32000)), ("message", .str msg)])]

/-- The success acknowledgment of the first handshake request: a result
carrying protocol version, capabilities and server identity, with no
`tools` and no `content` property. -/
def initAckResult : Json :=
  .obj [("protocolVersion", .str "2024-11-05"),
        ("capabilities", .obj [("tools", .obj [])]),
        ("serverInfo", .obj [("name", .str "srv"), ("version", .str "0.1")])]

/-- The full acknowledgment frame for the first handshake request. -/
def initAck : Json :=
  .obj [("jsonrpc", .str "2.0"),
        ("id", .str "init"),
        ("result", initAckResult)]

/-- A run that opens the socket, fires the scheduled `tools/list` send,
receives the descriptor list `[toolAB]`, selects `tool1` and clicks the
call button with the argument map still empty. -/
def callReadyTrace : List Event :=
  [.wsOpen, .timerFire, .recv (.ok (toolsListResp [toolAB])),
   .selectItem "tool1", .clickCall]

/-- `callReadyTrace` followed by a malformed frame (which re-enables the
call button) and a second click on the same tool: two calls to `tool1`
are then outstanding, neither ever answered. -/
def twoCallsSameToolTrace : List Event :=
  callReadyTrace ++ [.recv (.error "SyntaxError: bad frame"), .clickCall]

/-- A run issuing calls to two different tools, both still unanswered at
the end: the call to `tool1`, then a malformed frame (re-enabling the
button), then selection of `tool2` and a second call. -/
def twoCallsTrace : List Event :=
  [.wsOpen, .timerFire, .recv (.ok (toolsListResp [toolAB, toolTwo])),
   .selectItem "tool1", .clickCall,
   .recv (.error "SyntaxError: bad frame"),
   .selectItem "tool2", .clickCall]

/-- A client that is connected and has discovered `tool1`, with the
argument map still empty. -/
def readyClient : ClientState :=
  { initialClient with tools := .arr [toolAB], selectedTool := "tool1" }

/-- Helper for C1: looking up a key other than the updated one is
unchanged by `setEntry`. -/
theorem lookup_setEntry_ne (fs : List (String × Json)) (k k' : String) (v : Json)
    (h : k' ≠ k) : (setEntry fs k v).lookup k' = fs.lookup k' := by
  induction fs with
  | nil => simp [setEntry, List.lookup, beq_false_of_ne h]
  | cons p rest ih =>
    obtain ⟨a, b⟩ := p
    by_cases hak : a = k
    · subst hak
      simp [setEntry, List.lookup, beq_false_of_ne h]
    · simp [setEntry, hak, List.lookup, ih]

/-- Helper for C1: the truthy-field read `jget` at a key other than the
updated one is unchanged by `Json.setField`. -/
theorem jget_setField_ne (data v : Json) (k k' : String) (h : k' ≠ k) :
    jget (data.setField k v) k' = jget data k' := by
  cases data <;> simp [Json.setField, jget, Json.getField, lookup_setEntry_ne _ _ _ _ h]

/-- C1, counterexample. The claim says the ids of two concurrently
outstanding calls are distinct and each call has its own future. In the
run `twoCallsSameToolTrace`, two calls to `tool1` are issued while the
session is connected and neither is ever answered (the only frames
received are the `tools/list` response and one malformed frame), yet both
outgoing `tools/call` frames carry the identical id `call_tool1`, and the
client has no per-call record at all: only the single shared `loading`
flag, still set at the end. -/
theorem C1_counterexample :
    (run initWorld twoCallsSameToolTrace).sent =
      [initFrame, listFrame, callFrame "tool1" (.obj []), callFrame "tool1" (.obj [])] ∧
    (callFrame "tool1" (.obj [])).getField "id" = some (.str "call_tool1") ∧
    (run initWorld twoCallsSameToolTrace).client.loading = true :=
  ⟨rfl, rfl, rfl⟩

/-- C1, amended: the id of a `tools/call` frame is the constant string
`call_` followed by the tool name, so two calls to the same tool always
carry the same id regardless of their arguments; and incoming responses
are not routed by id at all: the effect of the message handler is
invariant under arbitrary changes to the id field of the frame. -/
theorem C1_amended (name : String) (args args' : Json) (st : ClientState)
    (data v : Json) :
    (callFrame name args).getField "id" = some (.str ("call_" ++ name)) ∧
    (callFrame name args).getField "id" = (callFrame name args').getField "id" ∧
    onmessage st (.ok (data.setField "id" v)) = onmessage st (.ok data) := by
  refine ⟨rfl, rfl, ?_⟩
  have hr := jget_setField_ne data v "id" "result" (by decide)
  have he := jget_setField_ne data v "id" "error" (by decide)
  simp only [onmessage, errorFallthrough, hr, he]

/-- C2, counterexample. The claim says that when the transport closes
with a call pending, the pending call is rejected with `ConnectionLost`
and no caller is left waiting. In the run below one call to `tool1` is
pending when the socket closes; afterwards the client has only flipped
status to offline and set the generic close message: the `loading` flag
of the pending call is still set, so its caller is left waiting forever.
-/
theorem C2_counterexample :
    (run initWorld (callReadyTrace ++ [Event.wsClose])).client.loading = true ∧
    (run initWorld (callReadyTrace ++ [Event.wsClose])).client.status = .offline ∧
    (run initWorld (callReadyTrace ++ [Event.wsClose])).client.error =
      "Connexion MCP fermée." :=
  ⟨rfl, rfl, rfl⟩

/-- C2, amended: on transport close the client only sets the status to
offline and (when the socket had opened) the close message; it never
completes a pending call: the `loading` flag, the displayed response and
the tool set are untouched, and nothing further is sent. -/
theorem C2_amended (w : World) :
    (step w .wsClose).client.loading = w.client.loading ∧
    (step w .wsClose).client.response = w.client.response ∧
    (step w .wsClose).client.tools = w.client.tools ∧
    (step w .wsClose).client.status = .offline ∧
    (step w .wsClose).sent = w.sent := by
  simp [step, onclose]

/-- C3: a call issued while the socket is not open (readyState other than
1, or a null socket) sends no frame, leaves no pending call (`loading`
ends false) and fails synchronously with the not-connected error message
- the code embodiment of `NotReady`. -/
theorem C3_confirmed (st : ClientState) (ws : Option Nat) (h : ws ≠ some 1) :
    handleCallTool st ws =
      ({ st with loading := false, response := "",
                 error := "WebSocket MCP non connecté." }, []) := by
  unfold handleCallTool
  rw [if_pos h]

/-- C3, witness: the fresh client with the socket still connecting
(readyState 0). -/
theorem C3_witness :
    handleCallTool initialClient (some 0) =
      ({ initialClient with loading := false, response := "",
                            error := "WebSocket MCP non connecté." }, []) :=
  C3_confirmed initialClient (some 0) (by decide)

/-- C4, counterexample. The claim says a malformed frame is logged and
discarded and neither resolves nor rejects any pending call. In the run
below a call to `tool1` is pending (`loading` is true); a single
unparseable frame then clears the `loading` flag and sets the displayed
error - a caller-visible failure of the pending call. -/
theorem C4_counterexample :
    (run initWorld callReadyTrace).client.loading = true ∧
    (run initWorld (callReadyTrace ++
        [Event.recv (.error "SyntaxError: Unexpected token")])).client.loading = false ∧
    (run initWorld (callReadyTrace ++
        [Event.recv (.error "SyntaxError: Unexpected token")])).client.error =
      "Erreur de parsing MCP: SyntaxError: Unexpected token" :=
  ⟨rfl, rfl, rfl⟩

/-- C4, amended: a frame that fails JSON parsing does not crash the
session (the exception is caught; status, tool set, selected tool and
displayed response are unchanged) but it is not silent either: it sets
the displayed error to the parse message and clears the shared `loading`
flag, thereby failing whatever call is in flight. -/
theorem C4_amended (st : ClientState) (e : String) :
    (onmessage st (.error e)).status = st.status ∧
    (onmessage st (.error e)).tools = st.tools ∧
    (onmessage st (.error e)).selectedTool = st.selectedTool ∧
    (onmessage st (.error e)).response = st.response ∧
    (onmessage st (.error e)).error = "Erreur de parsing MCP: " ++ e ∧
    (onmessage st (.error e)).loading = false := by
  simp [onmessage]

/-- C5, counterexample. The claim says that calling `tool1` (whose schema
requires a numeric `a` and a string `b`) with an empty argument map fails
with `InvalidArguments` listing both fields and sends nothing. In the run
below exactly that call is made with the empty map: a `tools/call` frame
with empty `arguments` is sent and no error of any kind is raised. -/
theorem C5_counterexample :
    (run initWorld callReadyTrace).sent =
      [initFrame, listFrame, callFrame "tool1" (.obj [])] ∧
    (run initWorld callReadyTrace).client.error = "" ∧
    (callFrame "tool1" (.obj [])).getField "params" =
      some (.obj [("name", .str "tool1"), ("arguments", .obj [])]) :=
  ⟨rfl, rfl, rfl⟩

/-- C5, amended: the client performs no argument validation whatsoever.
Whenever the socket is open and the selected tool is found, the call
sends exactly one `tools/call` frame embedding the caller-supplied
argument map verbatim, with no error and the `loading` flag set; the
declared schema is never consulted. -/
theorem C5_amended (st : ClientState) (tool : Json)
    (h : findTool st.tools st.selectedTool = some tool) :
    handleCallTool st (some 1) =
      ({ st with loading := true, response := "", error := "" },
       [callFrame st.selectedTool st.toolArgs]) := by
  unfold handleCallTool
  rw [if_neg (by simp)]
  simp [h]

/-- C5, witness: the connected client that discovered `tool1`, called
with the empty argument map. -/
theorem C5_witness :
    handleCallTool readyClient (some 1) =
      ({ readyClient with loading := true, response := "", error := "" },
       [callFrame "tool1" (.obj [])]) :=
  C5_amended readyClient toolAB rfl

/-- C6, counterexample. The claim says the `tools/list` frame is sent
only after a success response to the first handshake request has been
received. In the run below the socket opens and the 200 ms timer fires
with no incoming frame of any kind (the trace contains no receive event),
yet both handshake frames are already on the wire. -/
theorem C6_counterexample :
    (run initWorld [Event.wsOpen, Event.timerFire]).sent = [initFrame, listFrame] ∧
    ([Event.wsOpen, Event.timerFire].all fun e => !e.isRecv) = true :=
  ⟨rfl, rfl⟩

/-- C6, amended: on transport open the client sends the first handshake
request immediately, sets the status to online at once (before any
response), and unconditionally schedules the `tools/list` send, which the
timer then performs regardless of any response; the descriptor set is
populated when (and only because) a frame carrying `result.tools`
arrives. -/
theorem C6_amended (w : World) :
    (step w .wsOpen).sent = w.sent ++ [initFrame] ∧
    (step w .wsOpen).timers = w.timers ++ [listFrame] ∧
    (step w .wsOpen).client.status = .online ∧
    (w.timers = [] →
      (step (step w .wsOpen) .timerFire).sent = w.sent ++ [initFrame, listFrame]) ∧
    (∀ (st : ClientState) (ts : List Json),
      onmessage st (.ok (toolsListResp ts)) = { st with tools := .arr ts }) := by
  refine ⟨rfl, rfl, rfl, ?_, ?_⟩
  · intro ht
    simp [step, ht]
  · intro st ts
    rfl

/-- C6, witness: from the fresh world, opening then firing the timer puts
exactly the two handshake frames on the wire, in order. -/
theorem C6_witness :
    (step (step initWorld .wsOpen) .timerFire).sent =
      initWorld.sent ++ [initFrame, listFrame] :=
  (C6_amended initWorld).2.2.2.1 rfl

/-- C7, counterexample. The claim says a well-formed response whose id
matches no pending call is ignored with no state change. The fresh client
has no pending call at all (`loading` is false and no call was ever
issued), yet a well-formed response with the never-allocated id `zzz` and
a text content fragment changes the state: the displayed response becomes
`hi`. -/
theorem C7_counterexample :
    initialClient.loading = false ∧
    initialClient.response = "" ∧
    (onmessage initialClient (.ok (contentResp "zzz" "hi"))).response = "hi" ∧
    (onmessage initialClient (.ok (contentResp "zzz" "hi"))).response ≠
      initialClient.response :=
  ⟨rfl, rfl, rfl, by decide⟩

/-- C7, amended: the client never consults response ids. Any well-formed
response carrying a text content fragment - whatever its id, and whether
or not any call is pending - sets the displayed response to that text and
clears the `loading` flag, leaving everything else unchanged; ids play no
role in routing. -/
theorem C7_amended (st : ClientState) (rid s : String) :
    onmessage st (.ok (contentResp rid s)) =
      { st with response := s, loading := false } :=
  rfl

/-- C8, counterexample. The claim says an error local to a single call is
delivered only to that caller and leaves the pending state of every other
in-flight call unchanged. In the run `twoCallsTrace` the calls to `tool1`
and `tool2` are both outstanding (the single shared `loading` flag is the
only pending marker either of them has, and it is set); a server error
response for the `tool2` call then clears that shared flag and installs
its message in the shared error display, wiping the `tool1` call's
pending state and showing the failure to every caller. -/
theorem C8_counterexample :
    (run initWorld twoCallsTrace).client.loading = true ∧
    (run initWorld twoCallsTrace).sent =
      [initFrame, listFrame, callFrame "tool1" (.obj []), callFrame "tool2" (.obj [])] ∧
    (step (run initWorld twoCallsTrace)
        (.recv (.ok (errorResp "call_tool2" "server boom")))).client.loading = false ∧
    (step (run initWorld twoCallsTrace)
        (.recv (.ok (errorResp "call_tool2" "server boom")))).client.error =
      "server boom" :=
  ⟨rfl, rfl, rfl, rfl⟩

/-- C8, amended: an error response leaves the connection status, the tool
set, the selected tool and the displayed response unchanged, but its
message and the cleared `loading` flag land in the single state slot
shared by all in-flight calls, so the failure is visible to every caller,
not only the one whose call failed. -/
theorem C8_amended (st : ClientState) (data err : Json)
    (hres : jget data "result" = none) (herr : jget data "error" = some err) :
    onmessage st (.ok data) = { st with error := errMessage err, loading := false } := by
  simp [onmessage, errorFallthrough, hres, herr]

/-- C8, witness: the fresh client receiving a concrete error response. -/
theorem C8_witness :
    onmessage initialClient (.ok (errorResp "call_tool2" "server boom")) =
      { initialClient with error := "server boom", loading := false } :=
  C8_amended initialClient (errorResp "call_tool2" "server boom")
    (.obj [("code", .num (-32000)), ("message", .str "server boom")]) rfl rfl

/-- C9, counterexample. The claim says every outgoing call frame carries
its protocol version in a field named `protocol`. None of the three
outgoing frames has a `protocol` field at all: the version string `2.0`
is held by a field named `jsonrpc`. -/
theorem C9_counterexample :
    initFrame.getField "protocol" = none ∧
    initFrame.getField "jsonrpc" = some (.str "2.0") ∧
    listFrame.getField "protocol" = none ∧
    listFrame.getField "jsonrpc" = some (.str "2.0") ∧
    (callFrame "tool1" (.obj [])).getField "protocol" = none ∧
    (callFrame "tool1" (.obj [])).getField "jsonrpc" = some (.str "2.0") :=
  ⟨rfl, rfl, rfl, rfl, rfl, rfl⟩

/-- C9, amended: every outgoing frame is a JSON object with fields
`jsonrpc` (holding the string `2.0`), `id`, `method` and `params`, and no
`protocol` field; the call frame's method is `tools/call` and its params
carry the tool name and the verbatim argument map. -/
theorem C9_amended (name : String) (args : Json) :
    (callFrame name args).getField "jsonrpc" = some (.str "2.0") ∧
    (callFrame name args).getField "id" = some (.str ("call_" ++ name)) ∧
    (callFrame name args).getField "method" = some (.str "tools/call") ∧
    (callFrame name args).getField "params" =
      some (.obj [("name", .str name), ("arguments", args)]) ∧
    (callFrame name args).getField "protocol" = none ∧
    initFrame.getField "jsonrpc" = some (.str "2.0") ∧
    initFrame.getField "method" = some (.str "initialize") ∧
    initFrame.getField "protocol" = none ∧
    listFrame.getField "jsonrpc" = some (.str "2.0") ∧
    listFrame.getField "method" = some (.str "tools/list") ∧
    listFrame.getField "protocol" = none :=
  ⟨rfl, rfl, rfl, rfl, rfl, rfl, rfl, rfl, rfl, rfl, rfl⟩

/-- C10: a successfully parsed frame with no `error` field whose `result`
field has neither a `tools` nor a `content` property - the success
acknowledgment of the first handshake request in particular - leaves the
whole client state unchanged: tool set, status, displayed response and
error, and the `loading` flag. -/
theorem C10_confirmed (st : ClientState) (data r : Json)
    (hres : data.getField "result" = some r)
    (ht : r.getField "tools" = none)
    (hc : r.getField "content" = none)
    (he : data.getField "error" = none) :
    onmessage st (.ok data) = st := by
  cases htr : r.truthy <;>
    simp [onmessage, errorFallthrough, jget, hres, ht, hc, he, htr]

/-- C10, witness: the handshake acknowledgment frame received by the
fresh client is silently dropped. -/
theorem C10_witness : onmessage initialClient (.ok initAck) = initialClient :=
  C10_confirmed initialClient initAck initAckResult rfl rfl rfl rfl

end MCPClient
